import Mathlib

/-!
Verification of the population-interpolation and EIA-930 load-conversion
pipeline (files src/tell/data_process_pop_interp.py and
src/tell/data_process_eia_930.py) against its natural-language
specification.  Python functions are shallowly embedded as Lean
definitions; pandas tables become lists of records, pandas NaN becomes
`Option.none`, Python exceptions become `Except.error`.
-/

set_option maxRecDepth 100000

namespace Tell

/-! ## Calendar arithmetic

The hourly timeline is modelled as natural numbers counting whole hours
since 0000-01-01 00:00 of the proleptic Gregorian calendar, the calendar
pandas timestamps use. -/

/-- Gregorian leap-year rule. -/
def isLeapYear (y : Nat) : Bool :=
  (y % 4 == 0 && y % 100 != 0) || (y % 400 == 0)

/-- Number of days in calendar year `y`. -/
def daysInYear (y : Nat) : Nat :=
  if isLeapYear y then 366 else 365

/-- Number of days strictly before January 1 of year `y`, counted from
year 0 (closed form: 365 per year plus one per leap year in `[0, y)`,
by inclusion-exclusion over the divisibility conditions). -/
def daysBeforeYear (y : Nat) : Nat :=
  365 * y + (y + 3) / 4 - (y + 99) / 100 + (y + 399) / 400

theorem isLeapYear_iff (y : Nat) :
    isLeapYear y = true ↔ ((y % 4 = 0 ∧ ¬ y % 100 = 0) ∨ y % 400 = 0) := by
  simp [isLeapYear, Bool.or_eq_true, Bool.and_eq_true, beq_iff_eq, bne_iff_ne]

set_option maxHeartbeats 2000000 in
theorem daysBeforeYear_succ (y : Nat) :
    daysBeforeYear (y + 1) = daysBeforeYear y + daysInYear y := by
  have h2 : daysInYear y =
      if ((y % 4 = 0 ∧ ¬ y % 100 = 0) ∨ y % 400 = 0) then 366 else 365 := by
    unfold daysInYear
    by_cases h : isLeapYear y = true
    · rw [if_pos h, if_pos ((isLeapYear_iff y).mp h)]
    · rw [if_neg h, if_neg (fun hc => h ((isLeapYear_iff y).mpr hc))]
  rw [h2]
  unfold daysBeforeYear
  split
  · omega
  · omega

/-- Hour number of the timestamp `y`-01-01 00:00. -/
def jan1Hour (y : Nat) : Nat := 24 * daysBeforeYear y

/-- Hour number of the timestamp `y`-12-31 00:00 (midnight, not 23:00). -/
def dec31Hour (y : Nat) : Nat := 24 * (daysBeforeYear (y + 1) - 1)

/-- Number of days from `s`-01-01 to `e`-12-31, both inclusive. -/
def daysBetween (s e : Nat) : Nat := daysBeforeYear (e + 1) - daysBeforeYear s

/-- Embeds line 131 of data_process_pop_interp.py:
pandas date_range with start = s-01-01 (parsed as midnight),
end = e-12-31 (also parsed as midnight), freq one hour: every hour
from the start up to and including the end timestamp. -/
def date_range_H (s e : Nat) : List Nat :=
  (List.range (dec31Hour e + 1 - jan1Hour s)).map (fun i => jan1Hour s + i)

theorem daysInYear_ge (y : Nat) : 365 ≤ daysInYear y := by
  unfold daysInYear; split <;> omega

theorem daysBeforeYear_mono {s e : Nat} (h : s ≤ e) :
    daysBeforeYear s ≤ daysBeforeYear e := by
  induction e with
  | zero =>
    have hs : s = 0 := by omega
    exact hs ▸ Nat.le_refl _
  | succ n ih =>
    rcases Nat.lt_or_ge s (n + 1) with hlt | hge
    · have h1 := ih (by omega)
      have h2 := daysBeforeYear_succ n
      omega
    · have hs : s = n + 1 := by omega
      exact hs ▸ Nat.le_refl _

theorem daysBeforeYear_succ_ge (y : Nat) :
    daysBeforeYear y + 365 ≤ daysBeforeYear (y + 1) := by
  have h1 := daysInYear_ge y
  have h2 := daysBeforeYear_succ y
  omega

theorem daysBetween_pos {s e : Nat} (h : s ≤ e) : 365 ≤ daysBetween s e := by
  have h1 := daysBeforeYear_mono (show s + 1 ≤ e + 1 by omega)
  have h2 := daysBeforeYear_succ_ge s
  unfold daysBetween
  omega

theorem jan1_le_dec31 {s e : Nat} (h : s ≤ e) : jan1Hour s ≤ dec31Hour e := by
  have h1 := daysBetween_pos h
  unfold daysBetween at h1
  unfold jan1Hour dec31Hour
  omega

theorem date_range_H_length {s e : Nat} (h : s ≤ e) :
    (date_range_H s e).length = 24 * (daysBetween s e - 1) + 1 := by
  have h1 := daysBetween_pos h
  unfold daysBetween at h1
  unfold date_range_H daysBetween
  rw [List.length_map, List.length_range]
  unfold jan1Hour dec31Hour
  omega

theorem date_range_H_head {s e : Nat} (h : s ≤ e) :
    (date_range_H s e).head? = some (jan1Hour s) := by
  have h1 := jan1_le_dec31 h
  unfold date_range_H
  have hpos : 0 < dec31Hour e + 1 - jan1Hour s := by omega
  obtain ⟨m, hm⟩ := Nat.exists_eq_succ_of_ne_zero (Nat.pos_iff_ne_zero.mp hpos)
  rw [hm, List.range_succ_eq_map]
  simp

theorem date_range_H_last {s e : Nat} (h : s ≤ e) :
    (date_range_H s e).getLast? = some (dec31Hour e) := by
  have h1 := jan1_le_dec31 h
  unfold date_range_H
  have hpos : 0 < dec31Hour e + 1 - jan1Hour s := by omega
  obtain ⟨m, hm⟩ := Nat.exists_eq_succ_of_ne_zero (Nat.pos_iff_ne_zero.mp hpos)
  rw [hm, List.range_succ, List.map_append]
  simp only [List.map_cons, List.map_nil, List.getLast?_concat, Option.some.injEq]
  omega

/-! ## County population loader

Embeds fips_pop_yearly (src/tell/data_process_pop_interp.py, lines 8-37).
The wide source table county_populations_2000_to_2019.csv is modelled by
`PopSourceTable`: `yearCols` lists the years `y` for which a column
pop_y exists, and each row carries the county_FIPS value and the content
of each pop_y cell. -/

/-- One row of the wide population source table. `pop y` is the value of
column pop_y in this row (meaningful when `y` is in `yearCols`). -/
structure PopRow where
  county_FIPS : Int
  pop : Nat → ℚ

/-- The wide population source table. -/
structure PopSourceTable where
  yearCols : List Nat
  rows : List PopRow

/-- Failure of the loader.  In the source, selecting `df_pop[key]` for an
absent column pop_y raises a pandas KeyError; the spec calls this
failure a DataError. -/
inductive DataError
  | missingYearColumn (y : Nat)
deriving DecidableEq

/-- One long-form record: population, county_FIPS, year. -/
structure PopRecord where
  population : ℚ
  county_FIPS : Int
  year : Nat
deriving DecidableEq

/-- The years `start_year, ..., end_year` visited by the loader loop
(`range(start_year, end_year + 1)`). -/
def yearRange (start_year end_year : Nat) : List Nat :=
  (List.range (end_year + 1 - start_year)).map (fun i => start_year + i)

/-- The loader loop: for each year, select columns pop_y and county_FIPS
(raising if pop_y is absent), tag with the year and append to the
accumulated long-form table. -/
def fipsPopLoop (t : PopSourceTable) :
    List Nat → List PopRecord → Except DataError (List PopRecord)
  | [], acc => Except.ok acc
  | y :: rest, acc =>
    if y ∈ t.yearCols then
      fipsPopLoop t rest
        (acc ++ t.rows.map (fun r => ⟨r.pop y, r.county_FIPS, y⟩))
    else
      Except.error (DataError.missingYearColumn y)

/-- Embeds fips_pop_yearly: loop over the requested years starting from
an empty accumulator. -/
def fips_pop_yearly (t : PopSourceTable) (start_year end_year : Nat) :
    Except DataError (List PopRecord) :=
  fipsPopLoop t (yearRange start_year end_year) []

/-- The long-form table the loader produces when every year column is
present: one record per county per requested year, year-major. -/
def longForm (t : PopSourceTable) (s e : Nat) : List PopRecord :=
  (yearRange s e).flatMap (fun y => t.rows.map (fun r => ⟨r.pop y, r.county_FIPS, y⟩))

theorem yearRange_length {s e : Nat} (h : s ≤ e) :
    (yearRange s e).length = e - s + 1 := by
  unfold yearRange
  rw [List.length_map, List.length_range]
  omega

theorem fipsPopLoop_ok (t : PopSourceTable) (ys : List Nat) (acc : List PopRecord)
    (h : ∀ y ∈ ys, y ∈ t.yearCols) :
    fipsPopLoop t ys acc =
      Except.ok (acc ++ ys.flatMap (fun y => t.rows.map (fun r => ⟨r.pop y, r.county_FIPS, y⟩))) := by
  induction ys generalizing acc with
  | nil => simp [fipsPopLoop]
  | cons y rest ih =>
    simp only [fipsPopLoop]
    rw [if_pos (h y (by simp))]
    rw [ih _ (fun z hz => h z (by simp [hz]))]
    simp [List.flatMap_cons, List.append_assoc]

theorem fipsPopLoop_error (t : PopSourceTable) (ys : List Nat) (acc : List PopRecord)
    (h : ∃ y ∈ ys, y ∉ t.yearCols) :
    ∃ err, fipsPopLoop t ys acc = Except.error err := by
  induction ys generalizing acc with
  | nil => simp at h
  | cons y rest ih =>
    by_cases hy : y ∈ t.yearCols
    · obtain ⟨z, hz, hznot⟩ := h
      rcases List.mem_cons.mp hz with rfl | hzr
      · exact absurd hy hznot
      · simp only [fipsPopLoop]
        rw [if_pos hy]
        exact ih _ ⟨z, hzr, hznot⟩
    · refine ⟨DataError.missingYearColumn y, ?_⟩
      simp only [fipsPopLoop]
      rw [if_neg hy]

theorem longForm_length_aux (t : PopSourceTable) (ys : List Nat) :
    (ys.flatMap (fun y => t.rows.map (fun r => (⟨r.pop y, r.county_FIPS, y⟩ : PopRecord)))).length
      = ys.length * t.rows.length := by
  induction ys with
  | nil => simp
  | cons y rest ih => simp [List.flatMap_cons, ih, Nat.succ_mul, Nat.add_comm]

/-- C5: fips_pop_yearly fails with a DataError when some requested year
column is absent, and otherwise returns the long-form table with one
(county_identifier, year, population) row per county per requested
year, hence (end_year - start_year + 1) × county-count rows. -/
theorem claim_C5_fips_pop_yearly (t : PopSourceTable) (s e : Nat) (hse : s ≤ e) :
    ((∃ y ∈ yearRange s e, y ∉ t.yearCols) →
        ∃ err, fips_pop_yearly t s e = Except.error err) ∧
    ((∀ y ∈ yearRange s e, y ∈ t.yearCols) →
        fips_pop_yearly t s e = Except.ok (longForm t s e) ∧
        (longForm t s e).length = (e - s + 1) * t.rows.length) := by
  constructor
  · intro h
    exact fipsPopLoop_error t _ [] h
  · intro h
    constructor
    · unfold fips_pop_yearly longForm
      rw [fipsPopLoop_ok t _ [] h]
      simp
    · unfold longForm
      rw [longForm_length_aux, yearRange_length hse]

/-- A concrete wide population table with the columns pop_2015 and
pop_2016 and two county rows. -/
def exPopTable : PopSourceTable :=
  ⟨[2015, 2016], [⟨1001, fun y => (y : ℚ)⟩, ⟨1003, fun _ => 50⟩]⟩

theorem claim_C5_witness :
    fips_pop_yearly exPopTable 2015 2016 = Except.ok (longForm exPopTable 2015 2016) :=
  ((claim_C5_fips_pop_yearly exPopTable 2015 2016 (by decide)).2 (by decide)).1

/-! ## Sorting helpers

pandas pivot and groupby sort their labels; sorting is modelled by a
boolean insertion sort over codepoint order, the order pandas uses on
these ASCII strings. -/

/-- Codepoint-lexicographic comparison of character lists. -/
def charListLe : List Char → List Char → Bool
  | [], _ => true
  | _ :: _, [] => false
  | a :: as, b :: bs =>
    if a.toNat < b.toNat then true
    else if b.toNat < a.toNat then false
    else charListLe as bs

/-- Codepoint-lexicographic comparison of strings. -/
def strLe (a b : String) : Bool := charListLe a.data b.data

/-- Insert into a sorted list. -/
def insertLe {α : Type} (le : α → α → Bool) (a : α) : List α → List α
  | [] => [a]
  | b :: l => if le a b then a :: b :: l else b :: insertLe le a l

/-- Insertion sort. -/
def sortLe {α : Type} (le : α → α → Bool) : List α → List α
  | [] => []
  | a :: l => insertLe le a (sortLe le l)

/-! ## Annual-to-hourly interpolation stage

Embeds lines 124-136 of data_process_pop_interp.py, operating on the
annual BA population table (the shape produced by the groupby of
ba_pop_sum: one row per (BA short name, year)).  Line 124 computes
pd.to_datetime on the year column but discards the result, so the pivot
index remains the integer years. -/

/-- One row of the annual table after the renames of lines 125-126:
columns name, year, pop. -/
structure AnnualRow where
  name : String
  year : Nat
  pop : ℚ
deriving DecidableEq

/-- A pandas index label: either an integer year (the pivot index) or an
hourly Timestamp (the date_range index), the latter modelled by its hour
number.  Labels of the two kinds are never equal. -/
inductive Label
  | year (y : Nat)
  | ts (h : Nat)
deriving DecidableEq

/-- Cell of the pivoted table (line 128: pivot of the annual table with
index year, columns name, values pop): the pop value of the row with
that year and name, NaN (`none`) when no such row exists. -/
def pivotCell (df : List AnnualRow) (y : Nat) (n : String) : Option ℚ :=
  (df.find? (fun r => r.year == y && r.name == n)).map (fun r => r.pop)

/-- Column labels of the pivoted table: the distinct BA names, sorted. -/
def pivotCols (df : List AnnualRow) : List String :=
  sortLe strLe (df.map (fun r => r.name)).dedup

/-- Index labels of the pivoted table: the distinct years, sorted. -/
def pivotYears (df : List AnnualRow) : List Nat :=
  sortLe Nat.ble (df.map (fun r => r.year)).dedup

/-- The hourly index built on line 131, as labels. -/
def hourlyLabels (s e : Nat) : List Label := (date_range_H s e).map Label.ts

/-- Reindex lookup (line 134, `df.reindex(idx)`): the value at a new
label is the old cell when the label occurs in the old index, NaN
otherwise.  The old index holds only integer year labels, so every
Timestamp label misses and yields NaN. -/
def reindexCell (df : List AnnualRow) (n : String) : Label → Option ℚ
  | Label.year y => pivotCell df y n
  | Label.ts _ => none

/-- One column of the reindexed table over the hourly index. -/
def reindexColumn (df : List AnnualRow) (s e : Nat) (n : String) : List (Option ℚ) :=
  (hourlyLabels s e).map (reindexCell df n)

/-- Latest valid (non-NaN) entry strictly before position `i`, with its
position. -/
def prevValid (cells : List (Option ℚ)) : Nat → Option (Nat × ℚ)
  | 0 => none
  | i + 1 =>
    match cells.getD i none with
    | some v => some (i, v)
    | none => prevValid cells i

/-- Earliest valid (non-NaN) entry strictly after position `i`, with its
position. -/
def nextValid (cells : List (Option ℚ)) (i : Nat) : Option (Nat × ℚ) :=
  ((List.range cells.length).drop (i + 1)).findSome?
    (fun j => (cells.getD j none).map (fun v => (j, v)))

/-- pandas interpolate(method=linear) at one position: a valid entry is
kept; a NaN between two valid entries is replaced by the straight-line
value over positions; a NaN after the last valid entry is padded with
that entry; a NaN before the first valid entry stays NaN. -/
def interpAt (cells : List (Option ℚ)) (i : Nat) : Option ℚ :=
  match cells.getD i none with
  | some v => some v
  | none =>
    match prevValid cells i, nextValid cells i with
    | some jv, some kv =>
        some (jv.2 + (kv.2 - jv.2) * (((i : ℚ) - (jv.1 : ℚ)) / ((kv.1 : ℚ) - (jv.1 : ℚ))))
    | some jv, none => some jv.2
    | none, _ => none

/-- pandas interpolate(method=linear) over one column. -/
def interpolateColumn (cells : List (Option ℚ)) : List (Option ℚ) :=
  (List.range cells.length).map (interpAt cells)

/-- One BA column of `res` on line 134: reindex onto the hourly index,
then interpolate. -/
def interpolatedColumn (df : List AnnualRow) (s e : Nat) (n : String) : List (Option ℚ) :=
  interpolateColumn (reindexColumn df s e n)

/-- Embeds line 136, `res.to_csv(..., index=False, header=True)`: the
header row holds exactly the pivot column labels (the BA names); the
DatetimeIndex is dropped; the body has one row per hourly index entry
with one cell per BA column. -/
def hourly_population_csv (df : List AnnualRow) (s e : Nat) :
    List String × List (List (Option ℚ)) :=
  (pivotCols df,
   (List.range (date_range_H s e).length).map (fun i =>
     (pivotCols df).map (fun n => (interpolatedColumn df s e n).getD i none)))

/-! ## The reindexed table is all NaN

Because line 124 discards the result of pd.to_datetime, the pivot index
stays integer years while the hourly index holds Timestamps, so the
reindexed table is entirely NaN and interpolation leaves it so. -/

theorem map_const_eq_replicate {α β : Type} (l : List α) (b : β) :
    l.map (fun _ => b) = List.replicate l.length b := by
  induction l with
  | nil => rfl
  | cons a l ih => simp [ih, List.replicate]

theorem reindexColumn_eq_replicate (df : List AnnualRow) (s e : Nat) (n : String) :
    reindexColumn df s e n = List.replicate (date_range_H s e).length none := by
  unfold reindexColumn hourlyLabels
  rw [List.map_map]
  have h : (reindexCell df n ∘ Label.ts) = (fun _ : Nat => (none : Option ℚ)) := rfl
  rw [h, map_const_eq_replicate]

theorem getD_replicate_none (k i : Nat) :
    (List.replicate k (none : Option ℚ)).getD i none = none := by
  induction k generalizing i with
  | zero => rfl
  | succ k ih =>
    cases i with
    | zero => rfl
    | succ i => exact ih i

theorem prevValid_replicate_none (k : Nat) :
    ∀ i, prevValid (List.replicate k none) i = none := by
  intro i
  induction i with
  | zero => rfl
  | succ i ih =>
    unfold prevValid
    rw [getD_replicate_none]
    exact ih

theorem findSome?_none {α β : Type} (f : α → Option β) (l : List α)
    (h : ∀ a ∈ l, f a = none) : l.findSome? f = none := by
  induction l with
  | nil => rfl
  | cons a l ih =>
    rw [List.findSome?_cons, h a (by simp)]
    exact ih (fun x hx => h x (by simp [hx]))

theorem nextValid_replicate_none (k i : Nat) :
    nextValid (List.replicate k none) i = none := by
  unfold nextValid
  apply findSome?_none
  intro a ha
  rw [getD_replicate_none]
  rfl

theorem interpAt_replicate_none (k i : Nat) :
    interpAt (List.replicate k none) i = none := by
  unfold interpAt
  rw [getD_replicate_none, prevValid_replicate_none, nextValid_replicate_none]

theorem interpolateColumn_replicate_none (k : Nat) :
    interpolateColumn (List.replicate k none) = List.replicate k none := by
  unfold interpolateColumn
  rw [List.length_replicate]
  have h : ∀ i ∈ List.range k, interpAt (List.replicate k none) i
      = (fun _ : Nat => (none : Option ℚ)) i :=
    fun i _ => interpAt_replicate_none k i
  rw [List.map_congr_left h, map_const_eq_replicate, List.length_range]

theorem interpolatedColumn_all_none (df : List AnnualRow) (s e : Nat) (n : String) :
    interpolatedColumn df s e n = List.replicate (date_range_H s e).length none := by
  unfold interpolatedColumn
  rw [reindexColumn_eq_replicate, interpolateColumn_replicate_none]

/-! ## Claims C1, C2, C3, C7 -/

/-- An annual table with one BA and two annual anchors. -/
def C1df : List AnnualRow := [⟨"A", 2015, 100⟩, ⟨"A", 2016, 200⟩]

/-- C1: the claim states that for every BA with at least two annual
anchors the interpolated hourly series equals the annual value at each
anchor timestamp.  The code violates this: line 124 discards the
pd.to_datetime conversion, so reindexing the integer-year-indexed pivot
onto the hourly DatetimeIndex matches no label and every hourly value,
anchors included, is NaN — never the annual value.  The concrete table
`C1df` has anchor value 100 for BA A at year 2015, yet the whole hourly
series for A is `none`. -/
theorem claim_C1_anchor_roundtrip_fails :
    (∀ (df : List AnnualRow) (s e : Nat) (n : String),
        interpolatedColumn df s e n = List.replicate (date_range_H s e).length none) ∧
    pivotCell C1df 2015 "A" = some 100 ∧
    interpolatedColumn C1df 2015 2016 "A"
      = List.replicate (date_range_H 2015 2016).length none := by
  refine ⟨interpolatedColumn_all_none, rfl, interpolatedColumn_all_none C1df 2015 2016 "A"⟩

/-- C2 counterexample: for start_year = end_year = 2015 the hourly index
has 8737 entries, not 24 × 365 = 8760, and its last timestamp is
2015-12-31 00:00, not 2015-12-31 23:00. -/
theorem claim_C2_counterexample :
    (date_range_H 2015 2015).length ≠ 24 * daysBetween 2015 2015 ∧
    (date_range_H 2015 2015).getLast? ≠ some (dec31Hour 2015 + 23) := by
  have hlen := date_range_H_length (show 2015 ≤ 2015 by decide)
  have hlast := date_range_H_last (show 2015 ≤ 2015 by decide)
  constructor
  · rw [hlen]
    decide
  · rw [hlast]
    decide

/-- C2 amended: for start_year ≤ end_year the hourly index runs from
start_year-01-01 00:00 to end_year-12-31 00:00 (not 23:00) at one-hour
steps, so it has 24 × (days_between − 1) + 1 entries rather than
24 × days_between. -/
theorem claim_C2_hourly_index (s e : Nat) (h : s ≤ e) :
    (date_range_H s e).length = 24 * (daysBetween s e - 1) + 1 ∧
    (date_range_H s e).head? = some (jan1Hour s) ∧
    (date_range_H s e).getLast? = some (dec31Hour e) :=
  ⟨date_range_H_length h, date_range_H_head h, date_range_H_last h⟩

theorem claim_C2_witness :
    (date_range_H 2015 2016).length = 24 * (daysBetween 2015 2016 - 1) + 1 ∧
    (date_range_H 2015 2016).head? = some (jan1Hour 2015) ∧
    (date_range_H 2015 2016).getLast? = some (dec31Hour 2016) :=
  claim_C2_hourly_index 2015 2016 (by decide)

/-- An annual table with two BAs, PJM and CISO. -/
def C3df : List AnnualRow := [⟨"PJM", 2015, 10⟩, ⟨"CISO", 2015, 20⟩]

/-- C3 counterexample: the header of the file written on line 136 holds
the sorted BA names (`to_csv` with index=False drops the timestamp
index), not Year, Month, Day, Hour, Population. -/
theorem claim_C3_counterexample :
    (hourly_population_csv C3df 2015 2015).1 = ["CISO", "PJM"] ∧
    (hourly_population_csv C3df 2015 2015).1
      ≠ ["Year", "Month", "Day", "Hour", "Population"] := by
  constructor
  · rfl
  · decide

/-- C3 amended: the hourly population file has one column per distinct
BA short name (sorted, the pivot column labels) and one body row per
hourly index entry; the timestamp index is dropped by index=False, so no
Year, Month, Day, Hour or Population column is written. -/
theorem claim_C3_csv_shape (df : List AnnualRow) (s e : Nat) :
    (hourly_population_csv df s e).1 = pivotCols df ∧
    (hourly_population_csv df s e).2.length = (date_range_H s e).length := by
  constructor
  · rfl
  · unfold hourly_population_csv
    rw [List.length_map, List.length_range]

/-- C7: the interpolated hourly series of a BA column is a function of
the annual values of that BA alone: two annual tables that agree on the
pivot column of one BA (whatever their other BAs hold) yield the same
hourly series for that BA.  (With the reindex mismatch of C1 this holds
degenerately: both series are all NaN.) -/
theorem claim_C7_noninterference (df1 df2 : List AnnualRow) (s e : Nat) (n : String)
    (hagree : ∀ y : Nat, pivotCell df1 y n = pivotCell df2 y n) :
    interpolatedColumn df1 s e n = interpolatedColumn df2 s e n := by
  rw [interpolatedColumn_all_none, interpolatedColumn_all_none]

/-- Two annual tables agreeing on BA A but differing on BA B. -/
def C7df1 : List AnnualRow := [⟨"A", 2015, 100⟩, ⟨"B", 2015, 5⟩]

/-- Second table of the C7 witness pair. -/
def C7df2 : List AnnualRow := [⟨"A", 2015, 100⟩, ⟨"B", 2015, 7⟩]

theorem claim_C7_witness :
    interpolatedColumn C7df1 2015 2016 "A" = interpolatedColumn C7df2 2015 2016 "A" :=
  claim_C7_noninterference C7df1 C7df2 2015 2016 "A" (by
    intro y
    have hBA : (("B" : String) == "A") = false := by decide
    simp [pivotCell, C7df1, C7df2, List.find?, hBA])

/-! ## FIPS-BA mapping merger and population aggregator

Embeds merge_mapping_data (lines 40-84) and ba_pop_sum (lines 87-106)
of data_process_pop_interp.py.  merge_mapping_data concatenates the
assignment files and coerces BA_Number and County_FIPS (missing becomes
0, int64) — lines 53-67 — but line 69 then evaluates
frame.BA_Number.totuple(): a pandas Series has no attribute named
totuple, so an AttributeError is raised unconditionally and the
remaining lines (the metadata lookup, whose callee name is itself
undefined, the metadata join, and the population merge) never run. -/

/-- A Python runtime error. -/
inductive PyError
  | attributeError (attr : String)
  | nameError (missing : String)
deriving DecidableEq

/-- One raw row of a state_and_county_fips_codes.csv file, keeping the
columns Year, County_FIPS, BA_Number; each may hold NaN. -/
structure RawMapRow where
  Year : Option Nat
  County_FIPS : Option Int
  BA_Number : Option Int
deriving DecidableEq

/-- One row after line 66-67: BA_Number and County_FIPS with NaN
replaced by 0 and cast to int64. -/
structure MapRow where
  Year : Option Nat
  County_FIPS : Int
  BA_Number : Int
deriving DecidableEq

/-- The fillna(0).astype(int64) coercion of lines 66-67. -/
def coerceMapRow (r : RawMapRow) : MapRow :=
  ⟨r.Year, r.County_FIPS.getD 0, r.BA_Number.getD 0⟩

/-- Lines 53-67: concatenate all assignment files and coerce the
BA_Number and County_FIPS columns. -/
def mergeMappingFrame (files : List (List RawMapRow)) : List MapRow :=
  files.flatten.map coerceMapRow

/-- One entry of the external BA metadata lookup. -/
structure BAMeta where
  ba_number : Int
  ba_short_name : String
deriving DecidableEq

/-- One row of the intended merged table (population joined with the
BA mapping; the BA short name is NaN for unmatched county-years). -/
structure MergedRow where
  population : ℚ
  county_FIPS : Int
  year : Nat
  BA_Short_Name : Option String
deriving DecidableEq

/-- Embeds merge_mapping_data.  After building the coerced frame
(lines 53-67), line 69 evaluates frame.BA_Number.totuple(), which
raises AttributeError because pandas Series has no such attribute; the
metadata argument and population table are therefore never consulted. -/
def merge_mapping_data (files : List (List RawMapRow)) (metadata_table : List BAMeta)
    (pop : PopSourceTable) (start_year end_year : Nat) :
    Except PyError (List MergedRow) :=
  Except.error (PyError.attributeError "totuple")

/-- Line 104: group the merged table by (BA_Short_Name, year) and sum
population; rows whose BA short name is NaN are dropped by groupby. -/
def ba_pop_sum_groupby (df : List MergedRow) : List (String × Nat × ℚ) :=
  (sortLe (fun a b => strLe a.1 b.1 && (!strLe b.1 a.1 || Nat.ble a.2 b.2))
      ((df.filterMap (fun r => r.BA_Short_Name.map (fun n => (n, r.year)))).dedup)).map
    (fun k => (k.1, k.2,
      ((df.filter (fun r => r.BA_Short_Name == some k.1 && r.year == k.2)).map
        (fun r => r.population)).sum))

/-- Embeds ba_pop_sum (lines 87-106): merge, then group and sum.  The
merge raises before the groupby can run. -/
def ba_pop_sum (files : List (List RawMapRow)) (metadata_table : List BAMeta)
    (pop : PopSourceTable) (start_year end_year : Nat) :
    Except PyError (List (String × Nat × ℚ)) :=
  (merge_mapping_data files metadata_table pop start_year end_year).map ba_pop_sum_groupby

/-- An annual row as built from one groupby result row (renames of
lines 125-126). -/
def annualRowOfSum (x : String × Nat × ℚ) : AnnualRow := ⟨x.1, x.2.1, x.2.2⟩

/-- Embeds ba_pop_interpolate end to end (lines 109-138): aggregate,
pivot, reindex onto the hourly index, interpolate, and write the CSV.
The upstream AttributeError of merge_mapping_data propagates. -/
def ba_pop_interpolate (files : List (List RawMapRow)) (metadata_table : List BAMeta)
    (pop : PopSourceTable) (output_dir : String) (start_year end_year : Nat) :
    Except PyError (List String × List (List (Option ℚ))) :=
  (ba_pop_sum files metadata_table pop start_year end_year).map
    (fun l => hourly_population_csv (l.map annualRowOfSum) start_year end_year)

/-- A one-file assignment table whose BA numbers (99901, and 0 from the
NaN fill) appear nowhere in the metadata. -/
def C4files : List (List RawMapRow) :=
  [[⟨some 2015, some 1001, some 99901⟩, ⟨some 2015, some 1003, none⟩]]

/-- Metadata that recognizes only BA numbers 1 and 2. -/
def C4meta : List BAMeta := [⟨1, "PJM"⟩, ⟨2, "CISO"⟩]

/-- C4: the claim states that when no BA number of the assignment table
occurs in the metadata, merge_mapping_data returns a well-formed empty
table.  The code instead raises before the metadata is even consulted:
line 69 calls the nonexistent Series method totuple (and the later
lines reference the undefined names metadata_eia and metadata), so
every call raises AttributeError and no table, empty or not, is ever
returned. -/
theorem claim_C4_merge_crashes :
    (∀ r ∈ mergeMappingFrame C4files, ∀ m ∈ C4meta, r.BA_Number ≠ m.ba_number) ∧
    merge_mapping_data C4files C4meta exPopTable 2015 2016
      = Except.error (PyError.attributeError "totuple") := by
  exact ⟨by decide, rfl⟩

/-- C6: the claim states a no-double-counting bound on the (BA, year)
sums produced by ba_pop_sum.  The code produces no sums at all: the
merge_mapping_data call it starts with raises AttributeError (line 69,
Series.totuple) on every input, so ba_pop_sum always raises before the
groupby of line 104 runs. -/
theorem claim_C6_sum_crashes :
    ba_pop_sum C4files C4meta exPopTable 2015 2016
      = Except.error (PyError.attributeError "totuple") := rfl

/-! ## EIA 930 hourly load conversion

Embeds src/tell/data_process_eia_930.py. -/

/-- The posix path separator. -/
def sepChar : Char := '/'

/-- Trailing-separator test, the endswith check inside os.path.join. -/
def endsWithSep (s : String) : Bool := s.data.getLast? == some sepChar

/-- posix os.path.join for a relative second component (every component
joined here is `name.xlsx`, never absolute): drop nothing when the
first part is empty or already ends with the separator, otherwise
insert one separator. -/
def os_path_join (a b : String) : String :=
  if a = "" then b
  else if endsWithSep a then a ++ b
  else a ++ "/" ++ b

/-- The hard-coded list of 66 BA short names (lines 15-20). -/
def ba_name : List String :=
  ["AEC", "YAD", "AZPS", "AECI", "BPAT", "CISO", "CPLE", "CHPD", "DOPD", "DUK",
   "EPE", "ERCO", "EEI", "FPL", "FPC", "GVL", "HST", "IPCO", "IID", "JEA", "LDWP",
   "LGEE", "NWMT", "NEVP", "ISNE", "NSB", "NYIS", "OVEC", "PACW", "PACE", "GRMA",
   "FMPP", "GCPD", "PJM", "AVRN", "PSCO", "PGE", "PNM", "PSEI", "BANC", "SRP",
   "SCL", "SCEG", "SC", "SPA", "SOCO", "TPWR", "TAL", "TEC", "TVA", "TIDC",
   "WAUW", "AVA", "SEC", "TEPC", "WALC", "WACM", "SEPA", "GRIF", "GWA", "MISO",
   "DEAA", "CPLW", "GRID", "WWA", "SWPP"]

/-- Embeds list_EIA_930_files (lines 9-27): one path per hard-coded BA
short name; no filesystem is consulted, so existence is never checked. -/
def list_EIA_930_files (input_dir : String) : List String :=
  ba_name.map (fun i => os_path_join input_dir (i ++ ".xlsx"))

/-- Failure of one file conversion (unreadable workbook, missing sheet,
unparseable UTC time column, ...). -/
inductive ConvError
  | unparseableUTC (path : String)
deriving DecidableEq

/-- Embeds the joblib Parallel call of process_eia_930 (lines 78-83),
sequentially (the n_jobs=1 semantics; the source passes n_jobs=-1, but
with every backend joblib re-raises the first task exception).  Each
task either writes one CSV (its name is the ok value) or raises; the
first exception propagates out and no later task runs, while the
outputs written before it persist. -/
def parallel_run (task : String → Except ConvError String) :
    List String → List String × Option ConvError
  | [] => ([], none)
  | f :: rest =>
    match task f with
    | Except.ok out =>
      let r := parallel_run task rest
      (out :: r.1, r.2)
    | Except.error err => ([], some err)

/-- Embeds process_eia_930 (lines 62-83): build the 66-path list and
run the per-file conversion task over it.  `task` abstracts
eia_data_subset, whose outcome is a function of the file alone. -/
def process_eia_930 (task : String → Except ConvError String) (input_dir : String) :
    List String × Option ConvError :=
  parallel_run task (list_EIA_930_files input_dir)

/-- Is the task outcome a success. -/
def isOkE : Except ConvError String → Bool
  | Except.ok _ => true
  | Except.error _ => false

/-- A task that fails on exactly the second listed file, YAD. -/
def C8task : String → Except ConvError String :=
  fun p => if p = "in/YAD.xlsx" then Except.error (ConvError.unparseableUTC p) else Except.ok p

/-- C8 counterexample: the claim states that one failed file does not
abort the sibling conversions and failures are reported per file.  In
the code there is no per-file handling: with the second of the 66 files
malformed, the batch stops after one successful output and the
exception propagates out of process_eia_930. -/
theorem claim_C8_counterexample :
    (process_eia_930 C8task "in").1.length = 1 ∧
    (process_eia_930 C8task "in").2 = some (ConvError.unparseableUTC "in/YAD.xlsx") ∧
    (process_eia_930 C8task "in").1.length ≠ 65 := by
  refine ⟨by decide, by decide, by decide⟩

/-- C8 amended: a failing conversion aborts the batch.  When every file
before position k converts and file k raises, the Parallel call of
process_eia_930 re-raises that exception; exactly the k outputs written
before the failure exist and no later file is converted, with no
per-file failure report. -/
theorem claim_C8_batch_aborts (task : String → Except ConvError String)
    (pre post : List String) (a : String) (err : ConvError)
    (hpre : ∀ b ∈ pre, isOkE (task b) = true) (ha : task a = Except.error err) :
    (parallel_run task (pre ++ a :: post)).1.length = pre.length ∧
    (parallel_run task (pre ++ a :: post)).2 = some err := by
  induction pre with
  | nil =>
    simp only [List.nil_append, parallel_run, ha]
    simp
  | cons b rest ih =>
    have hb := hpre b (by simp)
    cases htb : task b with
    | ok out =>
      have hr := ih (fun x hx => hpre x (by simp [hx]))
      simp only [List.cons_append, parallel_run, htb, List.append_eq]
      refine ⟨?_, hr.2⟩
      rw [List.length_cons, hr.1]
      exact (List.length_cons b rest).symm
    | error e2 =>
      rw [htb] at hb
      simp [isOkE] at hb

/-- A five-file task failing on exactly the second file. -/
def C8task5 : String → Except ConvError String :=
  fun p => if p = "f2" then Except.error (ConvError.unparseableUTC "f2") else Except.ok p

theorem claim_C8_witness :
    (parallel_run C8task5 (["f1"] ++ "f2" :: ["f3", "f4", "f5"])).1.length = ["f1"].length ∧
    (parallel_run C8task5 (["f1"] ++ "f2" :: ["f3", "f4", "f5"])).2
      = some (ConvError.unparseableUTC "f2") :=
  claim_C8_batch_aborts C8task5 ["f1"] ["f3", "f4", "f5"] "f2"
    (ConvError.unparseableUTC "f2") (by decide) (by rfl)

/-- The single-quote character, codepoint 39. -/
def singleQuote : String := String.singleton (Char.ofNat 39)

/-- Embeds the column subset and rename of eia_data_subset (lines
48-56): the selected columns Year, Month, Day, Hour, DF, Adjusted D,
Adjusted NG, Adjusted TI are renamed in order; the rename target for DF
in the source ends with a stray single-quote character, reproduced here
by appending `singleQuote`. -/
def eia_csv_columns : List String :=
  ["Year", "Month", "Day", "Hour", "Forecast_Demand_MWh" ++ singleQuote,
   "Adjusted_Demand_MWh", "Adjusted_Generation_MWh", "Adjusted_Interchange_MWh"]

/-- C9: the claim states the written header is Year, Month, Day, Hour,
Forecast_Demand_MWh, Adjusted_Demand_MWh, Adjusted_Generation_MWh,
Adjusted_Interchange_MWh.  The code contradicts its own comment (lines
51-52): the fifth column name carries a stray trailing quote character,
so the header differs from the documented contract in that one cell. -/
theorem claim_C9_header_typo :
    eia_csv_columns[4]? = some ("Forecast_Demand_MWh" ++ singleQuote) ∧
    "Forecast_Demand_MWh" ++ singleQuote ≠ "Forecast_Demand_MWh" ∧
    eia_csv_columns ≠
      ["Year", "Month", "Day", "Hour", "Forecast_Demand_MWh",
       "Adjusted_Demand_MWh", "Adjusted_Generation_MWh", "Adjusted_Interchange_MWh"] := by
  refine ⟨rfl, by decide, by decide⟩

/-- C10: list_EIA_930_files returns exactly 66 paths, one per
hard-coded BA short name in fixed order from AEC to SWPP, each of the
form input_dir/name.xlsx, as a pure function of the directory string —
no existence check — and process_eia_930 hands exactly this list to the
per-file conversion step. -/
theorem claim_C10_file_list (input_dir : String)
    (h1 : input_dir ≠ "") (h2 : endsWithSep input_dir = false) :
    list_EIA_930_files input_dir
      = ba_name.map (fun n => input_dir ++ "/" ++ n ++ ".xlsx") ∧
    (list_EIA_930_files input_dir).length = 66 ∧
    (list_EIA_930_files input_dir).head? = some (input_dir ++ "/" ++ "AEC" ++ ".xlsx") ∧
    (list_EIA_930_files input_dir).getLast? = some (input_dir ++ "/" ++ "SWPP" ++ ".xlsx") ∧
    (∀ task, process_eia_930 task input_dir = parallel_run task (list_EIA_930_files input_dir)) := by
  have hjoin : ∀ b : String, os_path_join input_dir b = input_dir ++ "/" ++ b := by
    intro b
    unfold os_path_join
    rw [if_neg h1, if_neg (by simp [h2])]
  have hmain : list_EIA_930_files input_dir
      = ba_name.map (fun n => input_dir ++ "/" ++ n ++ ".xlsx") := by
    unfold list_EIA_930_files
    exact List.map_congr_left (fun n _ => by simp [hjoin, String.append_assoc])
  refine ⟨hmain, ?_, ?_, ?_, fun task => rfl⟩
  · rw [hmain, List.length_map]
    rfl
  · rw [hmain]
    rfl
  · rw [hmain]
    rfl

theorem claim_C10_witness :
    (list_EIA_930_files "data").length = 66 :=
  (claim_C10_file_list "data" (by decide) (by decide)).2.1

end Tell
